import Mathlib

/-
Verification development for the dat09bot-web candlestick sync service.

The embedding models, from the TypeScript source:
  * the `symbols` and `candlesticks` tables (drizzle schema) as lists of rows,
  * `SymbolsRepository` / `CandlesticksRepository` operations as pure functions
    on that store,
  * `BinanceService.syncCandlesticks`, `parseSymbol`, `getIntervalMs`,
    `fetchKlines` and `syncMultipleSymbols`.

Database and HTTP effects are modelled by an environment `Env`: every
repository call site may be made to throw (an injected error string), and the
single klines fetch performed by a sync call has an oracle-chosen outcome
`Except String (List BinanceKline)`.  The HTTP retry loop of `fetchKlines`
(status 429 handling) is modelled separately by `fetchKlinesHttp` over a list
of per-attempt HTTP responses.  Timestamps and ids are natural numbers;
decimal columns are kept as the strings the service stores.
-/

/-- One raw kline as returned by the Binance REST endpoint
(`BinanceKline` in binance.service.ts: a 12-field array). -/
structure BinanceKline where
  openTime : Nat
  openPrice : String
  highPrice : String
  lowPrice : String
  closePrice : String
  volume : String
  closeTime : Nat
  quoteAssetVolume : String
  numberOfTrades : Nat
  takerBuyBaseAssetVolume : String
  takerBuyQuoteAssetVolume : String
  ignoreField : String
deriving Repr, DecidableEq

/-- A row of the `candlesticks` table (schema.ts).  The serial `id` and
`createdAt` columns play no role in any claim and are omitted; a row's
identity in the list model is its position. -/
structure Candle where
  symbolId : Nat
  interval : String
  openTime : Nat
  closeTime : Nat
  openPrice : String
  highPrice : String
  lowPrice : String
  closePrice : String
  volume : String
  quoteAssetVolume : String
  numberOfTrades : Nat
  takerBuyBaseAssetVolume : String
  takerBuyQuoteAssetVolume : String
deriving Repr, DecidableEq

/-- A row of the `symbols` table (schema.ts), restricted to the columns the
service reads or writes. -/
structure SymbolRow where
  id : Nat
  symbol : String
  baseAsset : String
  quoteAsset : String
  isActive : Bool
deriving Repr, DecidableEq

/-- The database state: the two tables touched by the sync path, plus the
next value of the `symbols.id` serial sequence. -/
structure Store where
  symbols : List SymbolRow
  candles : List Candle
  nextSymbolId : Nat
deriving Repr, DecidableEq

def emptyStore : Store := { symbols := [], candles := [], nextSymbolId := 1 }

/-- SymbolsRepository.findBySymbol: select where symbol = code, limit 1. -/
def Store.findBySymbol (s : Store) (symbol : String) : Option SymbolRow :=
  s.symbols.find? (fun row => row.symbol == symbol)

/-- SymbolsRepository.create: insert returning the new row; the serial
primary key takes the next sequence value. -/
def Store.createSymbol (s : Store) (symbol baseAsset quoteAsset : String)
    (isActive : Bool) : SymbolRow × Store :=
  let row : SymbolRow :=
    { id := s.nextSymbolId, symbol := symbol, baseAsset := baseAsset,
      quoteAsset := quoteAsset, isActive := isActive }
  (row, { s with symbols := s.symbols ++ [row], nextSymbolId := s.nextSymbolId + 1 })

/-- The candlestick rows for one (symbolId, interval) pair. -/
def Store.candlesFor (s : Store) (symbolId : Nat) (interval : String) : List Candle :=
  s.candles.filter (fun c => c.symbolId == symbolId && c.interval == interval)

/-- Maximum of a list of naturals, `none` on the empty list. -/
def natListMax : List Nat → Option Nat
  | [] => none
  | x :: xs => some (xs.foldl Nat.max x)

/-- The true maximum stored openTime for (symbolId, interval), with no
zero collapse: what `orderBy desc limit 1` selects before `|| null`. -/
def Store.maxOpenTime (s : Store) (symbolId : Nat) (interval : String) : Option Nat :=
  natListMax ((s.candlesFor symbolId interval).map (fun c => c.openTime))

/-- CandlesticksRepository.getLatestTimestamp: select openTime ordered
descending, limit 1, then `result?.openTime || null` — a stored maximum of 0
is collapsed to null by JavaScript truthiness. -/
def Store.getLatestTimestamp (s : Store) (symbolId : Nat) (interval : String) :
    Option Nat :=
  match s.maxOpenTime symbolId interval with
  | none => none
  | some m => if m = 0 then none else some m

/-- CandlesticksRepository.findExisting: select where the
(symbolId, interval, openTime) triple matches, limit 1. -/
def Store.findExisting (s : Store) (symbolId : Nat) (interval : String)
    (openTime : Nat) : Option Candle :=
  s.candles.find? (fun c =>
    c.symbolId == symbolId && c.interval == interval && c.openTime == openTime)

/-- CandlesticksRepository.createMany: batch insert returning the inserted
rows ([] input short-circuits to []). -/
def Store.createMany (s : Store) (data : List Candle) : List Candle × Store :=
  match data with
  | [] => ([], s)
  | _ => (data, { s with candles := s.candles ++ data })

/-- Result of parseSymbol. -/
structure ParsedSymbol where
  baseAsset : String
  quoteAsset : String
deriving Repr, DecidableEq

/-- JavaScript s.endsWith(t), over the character list. -/
def strEndsWith (s t : String) : Bool :=
  List.isSuffixOf t.data s.data

/-- JavaScript s.slice(0, -n) for n greater than 0: the string minus its
last n characters (empty when n is at least the length). -/
def strDropRight (s : String) (n : Nat) : String :=
  String.mk (s.data.take (s.data.length - n))

/-- JavaScript s.slice(-n) for n greater than 0: the last n characters. -/
def strTakeRight (s : String) (n : Nat) : String :=
  String.mk (s.data.drop (s.data.length - n))

/-- Character count of a string (JavaScript s.length; the symbol codes in
play are ASCII, where code units and characters coincide). -/
def strLength (s : String) : Nat := s.data.length

/-- The priority-ordered quote-asset list of BinanceService.parseSymbol. -/
def commonQuotes : List String := ["USDT", "BUSD", "BTC", "ETH", "BNB", "USDC", "USD"]

/-- BinanceService.parseSymbol: greedy suffix match over commonQuotes
(first match wins), else last-4 fallback for codes longer than 4
characters, else quote asset UNKNOWN. -/
def parseSymbol (symbol : String) : ParsedSymbol :=
  match commonQuotes.find? (fun q => strEndsWith symbol q) with
  | some q => { baseAsset := strDropRight symbol (strLength q), quoteAsset := q }
  | none =>
    if strLength symbol > 4 then
      { baseAsset := strDropRight symbol 4, quoteAsset := strTakeRight symbol 4 }
    else
      { baseAsset := symbol, quoteAsset := "UNKNOWN" }

/-- The fifteen-entry interval-duration record of BinanceService.getIntervalMs
(lines 221-237), as a key-value list. -/
def intervalMap : List (String × Nat) :=
  [("1m", 60 * 1000),
   ("3m", 3 * 60 * 1000),
   ("5m", 5 * 60 * 1000),
   ("15m", 15 * 60 * 1000),
   ("30m", 30 * 60 * 1000),
   ("1h", 60 * 60 * 1000),
   ("2h", 2 * 60 * 60 * 1000),
   ("4h", 4 * 60 * 60 * 1000),
   ("6h", 6 * 60 * 60 * 1000),
   ("8h", 8 * 60 * 60 * 1000),
   ("12h", 12 * 60 * 60 * 1000),
   ("1d", 24 * 60 * 60 * 1000),
   ("3d", 3 * 24 * 60 * 60 * 1000),
   ("1w", 7 * 24 * 60 * 60 * 1000),
   ("1M", 30 * 24 * 60 * 60 * 1000)]

/-- BinanceService.getIntervalMs: `intervalMap[interval] || 60 * 1000` — a
table lookup with a one-minute default for unknown codes (no table value is
0, so the JavaScript falsy-or defaulting coincides with key absence). -/
def getIntervalMs (interval : String) : Nat :=
  match intervalMap.find? (fun p => p.1 == interval) with
  | some p => p.2
  | none => 60 * 1000

/-- The options record accepted by fetchKlines (SyncCandlestickOptions). -/
structure SyncCandlestickOptions where
  symbol : String
  interval : String
  limit : Option Nat
  startTime : Option Nat
  endTime : Option Nat
deriving Repr, DecidableEq

/-- The query parameters fetchKlines actually places on the HTTP request. -/
structure FetchParams where
  symbol : String
  interval : String
  startTime : Option Nat
  endTime : Option Nat
  limit : Option Nat
deriving Repr, DecidableEq

/-- JavaScript truthiness on an optional number: 0 and undefined are both
falsy, so a field guarded by `if (options.x)` is omitted in either case. -/
def optTruthy : Option Nat → Option Nat
  | none => none
  | some n => if n = 0 then none else some n

/-- Parameter building of fetchKlines (lines 164-177): startTime and endTime
are included only when truthy, and the limit is clamped to 1000. -/
def buildParams (options : SyncCandlestickOptions) : FetchParams :=
  { symbol := options.symbol, interval := options.interval,
    startTime := optTruthy options.startTime,
    endTime := optTruthy options.endTime,
    limit := (optTruthy options.limit).map (fun n => Nat.min n 1000) }

/-- Conversion of one Binance kline to a candlestick row (lines 106-120). -/
def toCandle (symbolId : Nat) (interval : String) (k : BinanceKline) : Candle :=
  { symbolId := symbolId, interval := interval,
    openTime := k.openTime, closeTime := k.closeTime,
    openPrice := k.openPrice, highPrice := k.highPrice, lowPrice := k.lowPrice,
    closePrice := k.closePrice, volume := k.volume,
    quoteAssetVolume := k.quoteAssetVolume, numberOfTrades := k.numberOfTrades,
    takerBuyBaseAssetVolume := k.takerBuyBaseAssetVolume,
    takerBuyQuoteAssetVolume := k.takerBuyQuoteAssetVolume }

/-- The deduplication loop (lines 122-133): each page entry is checked with
findExisting against the store — which does not change during the loop, the
batch insert coming only afterwards — and kept when the triple is absent. -/
def filterNew (s : Store) : List Candle → List Candle
  | [] => []
  | c :: rest =>
    match s.findExisting c.symbolId c.interval c.openTime with
    | some _ => filterNew s rest
    | none => c :: filterNew s rest

/-- Math.max over the openTime spread of a page (line 143); the call site
guards the page nonempty, for which the 0 base is absorbed. -/
def pageMaxOpenTime (cs : List Candle) : Nat :=
  (cs.map (fun c => c.openTime)).foldl Nat.max 0

/-- The value returned by syncCandlesticks. -/
structure SyncResult where
  success : Bool
  message : String
  candlesticksAdded : Nat
  latestTimestamp : Option Nat
deriving Repr, DecidableEq

/-- The failure result built in the catch block (lines 153-160). -/
def failResult (e : String) : SyncResult :=
  { success := false, message := "Sync failed: " ++ e,
    candlesticksAdded := 0, latestTimestamp := none }

/-- The oracle for one syncCandlesticks call: an injectable thrown error for
each repository call site, and the outcome of the single fetchKlines call
(either the fetched page or the error fetchKlines raised).  The
fields are ordered as the call sites execute. -/
structure Env where
  findBySymbolErr : Option String
  createSymbolErr : Option String
  getLatestErr : Option String
  fetchResp : Except String (List BinanceKline)
  findExistingErr : Option String
  createManyErr : Option String
deriving Repr

/-- An environment injecting no repository faults. -/
def Env.noStoreFaults (env : Env) : Prop :=
  env.findBySymbolErr = none ∧ env.createSymbolErr = none ∧
  env.getLatestErr = none ∧ env.findExistingErr = none ∧
  env.createManyErr = none

/-- What one syncCandlesticks call produces: the returned result, the store
it leaves behind, and — instrumentation for stating request-level
properties — the kline request it issued, if execution reached the fetch. -/
structure SyncOutcome where
  result : SyncResult
  store : Store
  request : Option FetchParams
deriving Repr, DecidableEq

/-- The kline request a sync call builds (lines 78-94 compute the start
time from the cursor; fetchKlines lines 164-177 assemble the parameters):
startTime is cursor + interval duration when a cursor is present, and the
limit is 1000. -/
def syncParams (s1 : Store) (dbSymbol : SymbolRow) (symbol interval : String) :
    FetchParams :=
  buildParams
    { symbol := symbol, interval := interval, limit := some 1000,
      startTime := (s1.getLatestTimestamp dbSymbol.id interval).map
        (fun t => t + getIntervalMs interval),
      endTime := none }

/-- Lines 72-160 of BinanceService.syncCandlesticks: everything after the
symbol row has been resolved — cursor read, fetch, dedup filter, batch
insert, and the assembly of the returned result.  A thrown error anywhere
yields failResult with the store as mutated so far. -/
def syncAfterSymbol (env : Env) (s1 : Store) (dbSymbol : SymbolRow)
    (symbol interval : String) : SyncOutcome :=
  match env.getLatestErr with
  | some e => ⟨failResult e, s1, none⟩
  | none =>
    match env.fetchResp with
    | .error e => ⟨failResult e, s1, some (syncParams s1 dbSymbol symbol interval)⟩
    | .ok binanceKlines =>
      match binanceKlines with
      | [] =>
        ⟨{ success := true, message := "No new candlesticks to sync",
           candlesticksAdded := 0,
           latestTimestamp := s1.getLatestTimestamp dbSymbol.id interval },
         s1, some (syncParams s1 dbSymbol symbol interval)⟩
      | k :: rest =>
        match env.findExistingErr with
        | some e => ⟨failResult e, s1, some (syncParams s1 dbSymbol symbol interval)⟩
        | none =>
          match filterNew s1 ((k :: rest).map (toCandle dbSymbol.id interval)),
              env.createManyErr with
          | _ :: _, some e =>
            ⟨failResult e, s1, some (syncParams s1 dbSymbol symbol interval)⟩
          | newCandlesticks, _ =>
            ⟨{ success := true,
               message := "Successfully synced " ++
                 toString (s1.createMany newCandlesticks).1.length ++
                 " candlesticks",
               candlesticksAdded := (s1.createMany newCandlesticks).1.length,
               latestTimestamp :=
                 match (k :: rest).map (toCandle dbSymbol.id interval) with
                 | [] => s1.getLatestTimestamp dbSymbol.id interval
                 | _ :: _ =>
                   some (pageMaxOpenTime
                     ((k :: rest).map (toCandle dbSymbol.id interval))) },
             (s1.createMany newCandlesticks).2,
             some (syncParams s1 dbSymbol symbol interval)⟩

/-- BinanceService.syncCandlesticks (lines 49-161).  The find-or-create of
the symbol row (lines 59-70), then syncAfterSymbol.  The try/catch of the
source is the propagation of failResult from every fallible step; totality —
the call always returns a result — is by construction. -/
def syncCandlesticks (env : Env) (s0 : Store) (symbol interval : String) :
    SyncOutcome :=
  match env.findBySymbolErr with
  | some e => ⟨failResult e, s0, none⟩
  | none =>
    match s0.findBySymbol symbol with
    | some row => syncAfterSymbol env s0 row symbol interval
    | none =>
      match env.createSymbolErr with
      | some e => ⟨failResult e, s0, none⟩
      | none =>
        let parsed := parseSymbol symbol
        let created := s0.createSymbol symbol parsed.baseAsset parsed.quoteAsset true
        syncAfterSymbol env created.2 created.1 symbol interval

/-- One HTTP attempt's outcome inside fetchKlines: a 2xx response with data,
a 429 rate-limit response, or any other failure (carrying the optional
upstream response message and the transport error message). -/
inductive HttpResp where
  | success (data : List BinanceKline)
  | rateLimited
  | failure (respMsg : Option String) (errMessage : String)
deriving Repr, DecidableEq

/-- The retry loop of fetchKlines (lines 179-190) over the per-attempt HTTP
outcomes: a 429 blocks and re-issues the identical request; any other
failure becomes a raised Binance API error; returns the final outcome paired
with the number of HTTP attempts consumed (retries = attempts - 1).  The
empty-oracle case is an artifact of the finite oracle (the real loop would
simply issue another attempt). -/
def fetchKlinesHttp : List HttpResp → Except String (List BinanceKline) × Nat
  | [] => (.error "Binance API error: no response", 0)
  | HttpResp.success d :: _ => (.ok d, 1)
  | HttpResp.rateLimited :: rest =>
    let r := fetchKlinesHttp rest
    (r.1, r.2 + 1)
  | HttpResp.failure respMsg errMessage :: _ =>
    (.error ("Binance API error: " ++ respMsg.getD errMessage), 1)

/-- One entry of the per-symbol report of syncMultipleSymbols. -/
structure SymbolSyncResult where
  symbol : String
  success : Bool
  message : String
  candlesticksAdded : Nat
deriving Repr, DecidableEq

/-- What syncMultipleSymbols produces, plus the final store. -/
structure MultiSyncOutcome where
  results : List SymbolSyncResult
  totalCandlesticksAdded : Nat
  store : Store
deriving Repr, DecidableEq

/-- BinanceService.syncMultipleSymbols (lines 264-294): a sequential loop
over the symbol codes; each call gets its own exchange/store behaviour
(envs n is the behaviour of the n-th call).  The inter-request delay is
untimed here. -/
def syncMultipleSymbols (envs : Nat → Env) (s : Store) (symbols : List String)
    (interval : String) : MultiSyncOutcome :=
  match symbols with
  | [] => ⟨[], 0, s⟩
  | symbol :: rest =>
    let out := syncCandlesticks (envs 0) s symbol interval
    let tail := syncMultipleSymbols (fun i => envs (i + 1)) out.store rest interval
    ⟨{ symbol := symbol, success := out.result.success,
       message := out.result.message,
       candlesticksAdded := out.result.candlesticksAdded } :: tail.results,
     out.result.candlesticksAdded + tail.totalCandlesticksAdded, tail.store⟩

/-- Two candlestick rows agree on the (symbolId, interval, openTime) key. -/
def tripleEq (a b : Candle) : Bool :=
  a.symbolId == b.symbolId && a.interval == b.interval && a.openTime == b.openTime

/-- Every pair of rows in the list has distinct (symbolId, interval,
openTime) keys: the uniqueness invariant of the spec. -/
def uniqueTriples : List Candle → Bool
  | [] => true
  | c :: rest => rest.all (fun d => !(tripleEq c d)) && uniqueTriples rest

/-- Store states reachable from the empty database by syncCandlesticks
calls, under arbitrary exchange and fault behaviour. -/
inductive Reachable : Store → Prop where
  | init : Reachable emptyStore
  | step (env : Env) (symbol interval : String) {s : Store} :
      Reachable s → Reachable (syncCandlesticks env s symbol interval).store

/-- The exchange behaviour returns pages with pairwise-distinct openTime
values (which live Binance pages always do). -/
def GoodEnv (env : Env) : Prop :=
  ∀ page, env.fetchResp = Except.ok page →
    (page.map (fun k => k.openTime)).Nodup

/-- Store states reachable from the empty database by syncCandlesticks
calls whose fetched pages have pairwise-distinct openTime values. -/
inductive ReachableGood : Store → Prop where
  | init : ReachableGood emptyStore
  | step (env : Env) (symbol interval : String) {s : Store} :
      GoodEnv env → ReachableGood s →
      ReachableGood (syncCandlesticks env s symbol interval).store

/-- The startTime parameter carried by the kline request a sync call
issued, if any. -/
def requestStartTime (out : SyncOutcome) : Option Nat :=
  match out.request with
  | some p => p.startTime
  | none => none

/-- The fifteen interval codes of the getIntervalMs table. -/
def intervalCodes : List String :=
  ["1m", "3m", "5m", "15m", "30m", "1h", "2h", "4h", "6h", "8h", "12h",
   "1d", "3d", "1w", "1M"]

/-- An environment with no injected repository faults and the given fetch
outcome. -/
def noFaultEnv (resp : Except String (List BinanceKline)) : Env :=
  { findBySymbolErr := none, createSymbolErr := none, getLatestErr := none,
    fetchResp := resp, findExistingErr := none, createManyErr := none }

/-- A concrete kline with the given openTime, for counterexamples and
witnesses. -/
def exKline (t : Nat) : BinanceKline :=
  { openTime := t, openPrice := "100", highPrice := "101", lowPrice := "99",
    closePrice := "100", volume := "5", closeTime := t + 59999,
    quoteAssetVolume := "500", numberOfTrades := 3,
    takerBuyBaseAssetVolume := "2", takerBuyQuoteAssetVolume := "200",
    ignoreField := "0" }

/-- A concrete symbols-table row for BTCUSDT with id 1. -/
def exSymbolRow : SymbolRow :=
  { id := 1, symbol := "BTCUSDT", baseAsset := "BTC", quoteAsset := "USDT",
    isActive := true }

/-- A store whose only candlestick for (1, 1m) has openTime 0 — the
maximum stored openTime is 0. -/
def zeroCursorStore : Store :=
  { symbols := [exSymbolRow], candles := [toCandle 1 "1m" (exKline 0)],
    nextSymbolId := 2 }

/-- A store primed with a single bar at openTime 60000 for (1, 1m). -/
def primedStore : Store :=
  { symbols := [exSymbolRow], candles := [toCandle 1 "1m" (exKline 60000)],
    nextSymbolId := 2 }

/-- A faultless environment whose fetched page repeats openTime 5. -/
def dupPageEnv : Env := noFaultEnv (Except.ok [exKline 5, exKline 5])

/-- The store produced by one sync call on the empty database under the
repeated-openTime page. -/
def dupStore : Store :=
  (syncCandlesticks dupPageEnv emptyStore "BTCUSDT" "1m").store

/-- An environment whose findBySymbol repository call throws. -/
def faultEnv : Env :=
  { findBySymbolErr := some "db down", createSymbolErr := none,
    getLatestErr := none, fetchResp := Except.ok [], findExistingErr := none,
    createManyErr := none }

/-- A faultless environment fetching two bars with distinct openTimes. -/
def goodPageEnv : Env := noFaultEnv (Except.ok [exKline 60000, exKline 120000])

/-- The store produced by one sync call on the empty database under the
distinct-openTime page. -/
def goodStore : Store :=
  (syncCandlesticks goodPageEnv emptyStore "BTCUSDT" "1m").store

lemma createMany_fst (s : Store) (l : List Candle) : (s.createMany l).1 = l := by
  cases l <;> rfl

lemma createMany_candles (s : Store) (l : List Candle) :
    (s.createMany l).2.candles = s.candles ++ l := by
  cases l <;> simp [Store.createMany]

lemma createMany_symbols (s : Store) (l : List Candle) :
    (s.createMany l).2.symbols = s.symbols := by
  cases l <;> rfl

lemma findExisting_congr {s1 s2 : Store} (h : s1.candles = s2.candles)
    (i : Nat) (iv : String) (t : Nat) :
    s1.findExisting i iv t = s2.findExisting i iv t := by
  unfold Store.findExisting; rw [h]

lemma filterNew_mem {s : Store} {l : List Candle} {c : Candle}
    (hc : c ∈ filterNew s l) :
    c ∈ l ∧ s.findExisting c.symbolId c.interval c.openTime = none := by
  induction l with
  | nil => simp [filterNew] at hc
  | cons a rest ih =>
    simp only [filterNew] at hc
    split at hc
    · exact ⟨List.mem_cons_of_mem a (ih hc).1, (ih hc).2⟩
    · rcases List.mem_cons.mp hc with h | h
      · subst h; exact ⟨List.mem_cons_self _ _, by assumption⟩
      · exact ⟨List.mem_cons_of_mem a (ih h).1, (ih h).2⟩

lemma filterNew_sublist (s : Store) (l : List Candle) :
    (filterNew s l).Sublist l := by
  induction l with
  | nil => simp [filterNew]
  | cons a rest ih =>
    simp only [filterNew]
    split
    · exact ih.cons a
    · exact ih.cons₂ a

lemma filterNew_congr {s1 s2 : Store} (h : s1.candles = s2.candles)
    (l : List Candle) : filterNew s1 l = filterNew s2 l := by
  induction l with
  | nil => rfl
  | cons a rest ih =>
    simp only [filterNew, findExisting_congr h, ih]

lemma uniqueTriples_iff (l : List Candle) :
    uniqueTriples l = true ↔ l.Pairwise (fun a b => tripleEq a b = false) := by
  induction l with
  | nil => simp [uniqueTriples]
  | cons a rest ih =>
    simp [uniqueTriples, List.pairwise_cons, ih, List.all_eq_true, and_comm]

lemma pageMax_map (i : Nat) (iv : String) (page : List BinanceKline) :
    pageMaxOpenTime (page.map (toCandle i iv)) =
      (page.map (fun k => k.openTime)).foldl Nat.max 0 := by
  unfold pageMaxOpenTime
  rw [List.map_map]
  rfl

lemma sync_dispatch (env : Env) (s0 : Store) (symbol interval : String) :
    (∃ e, env.findBySymbolErr = some e ∧
      syncCandlesticks env s0 symbol interval = ⟨failResult e, s0, none⟩) ∨
    (∃ row, env.findBySymbolErr = none ∧ s0.findBySymbol symbol = some row ∧
      syncCandlesticks env s0 symbol interval =
        syncAfterSymbol env s0 row symbol interval) ∨
    (∃ e, env.findBySymbolErr = none ∧ s0.findBySymbol symbol = none ∧
      env.createSymbolErr = some e ∧
      syncCandlesticks env s0 symbol interval = ⟨failResult e, s0, none⟩) ∨
    (env.findBySymbolErr = none ∧ s0.findBySymbol symbol = none ∧
      env.createSymbolErr = none ∧
      syncCandlesticks env s0 symbol interval =
        syncAfterSymbol env
          (s0.createSymbol symbol (parseSymbol symbol).baseAsset
            (parseSymbol symbol).quoteAsset true).2
          (s0.createSymbol symbol (parseSymbol symbol).baseAsset
            (parseSymbol symbol).quoteAsset true).1 symbol interval) := by
  unfold syncCandlesticks
  cases h1 : env.findBySymbolErr with
  | some e => exact Or.inl ⟨e, rfl, rfl⟩
  | none =>
    cases hrow : s0.findBySymbol symbol with
    | some row => exact Or.inr (Or.inl ⟨row, rfl, rfl, rfl⟩)
    | none =>
      cases hc : env.createSymbolErr with
      | some e => exact Or.inr (Or.inr (Or.inl ⟨e, rfl, rfl, rfl, rfl⟩))
      | none => exact Or.inr (Or.inr (Or.inr ⟨rfl, rfl, rfl, rfl⟩))

lemma syncAfterSymbol_store_shape (env : Env) (s1 : Store) (row : SymbolRow)
    (symbol interval : String) :
    ∃ ins : List Candle,
      (syncAfterSymbol env s1 row symbol interval).store.candles = s1.candles ++ ins ∧
      (∀ c ∈ ins, s1.findExisting c.symbolId c.interval c.openTime = none) ∧
      (syncAfterSymbol env s1 row symbol interval).store.symbols = s1.symbols := by
  unfold syncAfterSymbol
  repeat' split
  all_goals try exact ⟨[], by simp, by simp, rfl⟩
  all_goals
    refine ⟨_, createMany_candles _ _, ?_, createMany_symbols _ _⟩
  all_goals intro c hc; exact (filterNew_mem hc).2

lemma syncAfterSymbol_request_eq (env : Env) (s1 : Store) (row : SymbolRow)
    (symbol interval : String) (h2 : env.getLatestErr = none) :
    (syncAfterSymbol env s1 row symbol interval).request =
      some (syncParams s1 row symbol interval) := by
  unfold syncAfterSymbol
  rw [h2]
  repeat' split
  all_goals first
    | rfl
    | simp_all

lemma syncAfterSymbol_empty_fetch (env : Env) (s1 : Store) (row : SymbolRow)
    (symbol interval : String) (h2 : env.getLatestErr = none)
    (hf : env.fetchResp = Except.ok []) :
    syncAfterSymbol env s1 row symbol interval =
      ⟨{ success := true, message := "No new candlesticks to sync",
         candlesticksAdded := 0,
         latestTimestamp := s1.getLatestTimestamp row.id interval },
       s1, some (syncParams s1 row symbol interval)⟩ := by
  unfold syncAfterSymbol
  rw [h2, hf]

lemma syncAfterSymbol_success_latest (env : Env) (s1 : Store) (row : SymbolRow)
    (symbol interval : String) (page : List BinanceKline)
    (hf : env.fetchResp = Except.ok page) (hne : page ≠ []) :
    (syncAfterSymbol env s1 row symbol interval).result.success = true →
    (syncAfterSymbol env s1 row symbol interval).result.latestTimestamp =
      some (pageMaxOpenTime (page.map (toCandle row.id interval))) := by
  unfold syncAfterSymbol
  rw [hf]
  repeat' split
  all_goals intro h
  all_goals first
    | rfl
    | exact absurd rfl hne
    | simp_all [failResult]

lemma syncAfterSymbol_fail_shape (env : Env) (s1 : Store) (row : SymbolRow)
    (symbol interval : String) :
    (syncAfterSymbol env s1 row symbol interval).result.success = false →
    ∃ e, (syncAfterSymbol env s1 row symbol interval).result = failResult e := by
  unfold syncAfterSymbol
  repeat' split
  all_goals intro h
  all_goals first
    | exact ⟨_, rfl⟩
    | simp_all

lemma syncAfterSymbol_fetch_error (env : Env) (s1 : Store) (row : SymbolRow)
    (symbol interval : String) (e : String) (h2 : env.getLatestErr = none)
    (hf : env.fetchResp = Except.error e) :
    syncAfterSymbol env s1 row symbol interval =
      ⟨failResult e, s1, some (syncParams s1 row symbol interval)⟩ := by
  unfold syncAfterSymbol
  rw [h2, hf]

lemma find?_append_of_none {α : Type} (p : α → Bool) (l1 l2 : List α)
    (h : l1.find? p = none) : (l1 ++ l2).find? p = l2.find? p := by
  induction l1 with
  | nil => simp
  | cons a rest ih =>
    simp only [List.find?_cons] at h
    cases hp : p a with
    | true => rw [hp] at h; simp at h
    | false =>
      rw [hp] at h
      simp only [List.cons_append, List.find?_cons, hp]
      exact ih h

lemma findBySymbol_congr {s1 s2 : Store} (h : s1.symbols = s2.symbols)
    (symbol : String) : s1.findBySymbol symbol = s2.findBySymbol symbol := by
  unfold Store.findBySymbol; rw [h]

lemma sync_store_shape (env : Env) (s0 : Store) (symbol interval : String) :
    ∃ ins : List Candle,
      (syncCandlesticks env s0 symbol interval).store.candles = s0.candles ++ ins ∧
      (∀ c ∈ ins, s0.findExisting c.symbolId c.interval c.openTime = none) ∧
      ((syncCandlesticks env s0 symbol interval).store.symbols = s0.symbols ∨
        ∃ row, (syncCandlesticks env s0 symbol interval).store.symbols =
          s0.symbols ++ [row] ∧ row.symbol = symbol) := by
  rcases sync_dispatch env s0 symbol interval with
    ⟨e, _, heq⟩ | ⟨row, _, _, heq⟩ | ⟨e, _, _, _, heq⟩ | ⟨_, _, _, heq⟩
  · exact ⟨[], by rw [heq]; simp, by simp, Or.inl (by rw [heq])⟩
  · rw [heq]
    obtain ⟨ins, hc, hmem, hsym⟩ := syncAfterSymbol_store_shape env s0 row symbol interval
    exact ⟨ins, hc, hmem, Or.inl hsym⟩
  · exact ⟨[], by rw [heq]; simp, by simp, Or.inl (by rw [heq])⟩
  · rw [heq]
    obtain ⟨ins, hc, hmem, hsym⟩ := syncAfterSymbol_store_shape env
      (s0.createSymbol symbol (parseSymbol symbol).baseAsset
        (parseSymbol symbol).quoteAsset true).2
      (s0.createSymbol symbol (parseSymbol symbol).baseAsset
        (parseSymbol symbol).quoteAsset true).1 symbol interval
    refine ⟨ins, by rw [hc]; rfl, ?_,
      Or.inr ⟨(s0.createSymbol symbol (parseSymbol symbol).baseAsset
        (parseSymbol symbol).quoteAsset true).1, by rw [hsym]; rfl, rfl⟩⟩
    intro c hcmem
    have := hmem c hcmem
    rwa [findExisting_congr (rfl : ((s0.createSymbol symbol
      (parseSymbol symbol).baseAsset (parseSymbol symbol).quoteAsset
      true).2).candles = s0.candles)] at this

lemma sync_symbol_present (env : Env) (s0 : Store) (symbol interval : String)
    (h1 : env.findBySymbolErr = none) (hc : env.createSymbolErr = none) :
    ∃ row, (syncCandlesticks env s0 symbol interval).store.findBySymbol symbol =
      some row := by
  rcases sync_dispatch env s0 symbol interval with
    ⟨e, he, _⟩ | ⟨row, _, hrow, heq⟩ | ⟨e, _, _, hce, _⟩ | ⟨_, hrow, _, heq⟩
  · rw [he] at h1; cases h1
  · rw [heq]
    obtain ⟨_, _, _, hsym⟩ := syncAfterSymbol_store_shape env s0 row symbol interval
    rw [findBySymbol_congr hsym, hrow]
    exact ⟨row, rfl⟩
  · rw [hce] at hc; cases hc
  · rw [heq]
    obtain ⟨_, _, _, hsym⟩ := syncAfterSymbol_store_shape env
      (s0.createSymbol symbol (parseSymbol symbol).baseAsset
        (parseSymbol symbol).quoteAsset true).2
      (s0.createSymbol symbol (parseSymbol symbol).baseAsset
        (parseSymbol symbol).quoteAsset true).1 symbol interval
    rw [findBySymbol_congr hsym]
    refine ⟨(s0.createSymbol symbol (parseSymbol symbol).baseAsset
      (parseSymbol symbol).quoteAsset true).1, ?_⟩
    show (s0.symbols ++ [(s0.createSymbol symbol (parseSymbol symbol).baseAsset
      (parseSymbol symbol).quoteAsset true).1]).find?
        (fun r => r.symbol == symbol) = _
    unfold Store.findBySymbol at hrow
    rw [find?_append_of_none _ _ _ hrow]
    simp [Store.createSymbol, List.find?_cons]

lemma tripleEq_toCandle_false {i : Nat} {iv : String} {k1 k2 : BinanceKline}
    (h : k1.openTime ≠ k2.openTime) :
    tripleEq (toCandle i iv k1) (toCandle i iv k2) = false := by
  simp [tripleEq, toCandle, h]

lemma pairwise_tripleEq_of_nodup (i : Nat) (iv : String)
    (page : List BinanceKline)
    (h : (page.map (fun k => k.openTime)).Nodup) :
    (page.map (toCandle i iv)).Pairwise (fun a b => tripleEq a b = false) := by
  rw [List.pairwise_map]
  have h' : page.Pairwise (fun a b => a.openTime ≠ b.openTime) :=
    List.pairwise_map.mp h
  exact h'.imp (fun hne => tripleEq_toCandle_false hne)

lemma findExisting_none_mem {s : Store} {i : Nat} {iv : String} {t : Nat}
    (h : s.findExisting i iv t = none) {a : Candle} (ha : a ∈ s.candles) :
    (a.symbolId == i && (a.interval == iv && a.openTime == t)) = false := by
  have := List.find?_eq_none.mp h a ha
  simpa using this

lemma uniqueTriples_insert (s1 : Store) (cs : List Candle)
    (hs : uniqueTriples s1.candles = true)
    (hcs : cs.Pairwise (fun a b => tripleEq a b = false)) :
    uniqueTriples (s1.createMany (filterNew s1 cs)).2.candles = true := by
  rw [uniqueTriples_iff] at hs ⊢
  rw [createMany_candles]
  rw [List.pairwise_append]
  refine ⟨hs, hcs.sublist (filterNew_sublist s1 cs), ?_⟩
  intro a ha b hb
  have hfe := (filterNew_mem hb).2
  have := findExisting_none_mem hfe ha
  simpa [tripleEq, Bool.and_assoc] using this

lemma syncAfterSymbol_preserves_unique (env : Env) (s1 : Store)
    (row : SymbolRow) (symbol interval : String)
    (hgood : GoodEnv env) (hs : uniqueTriples s1.candles = true) :
    uniqueTriples (syncAfterSymbol env s1 row symbol interval).store.candles = true := by
  unfold syncAfterSymbol
  repeat' split
  all_goals try exact hs
  all_goals
    exact uniqueTriples_insert s1 _ hs
      (pairwise_tripleEq_of_nodup _ _ _ (hgood _ (by assumption)))

lemma sync_preserves_unique (env : Env) (s0 : Store) (symbol interval : String)
    (hgood : GoodEnv env) (hs : uniqueTriples s0.candles = true) :
    uniqueTriples (syncCandlesticks env s0 symbol interval).store.candles = true := by
  rcases sync_dispatch env s0 symbol interval with
    ⟨e, _, heq⟩ | ⟨row, _, _, heq⟩ | ⟨e, _, _, _, heq⟩ | ⟨_, _, _, heq⟩
  · rw [heq]; exact hs
  · rw [heq]; exact syncAfterSymbol_preserves_unique env s0 row symbol interval hgood hs
  · rw [heq]; exact hs
  · rw [heq]
    exact syncAfterSymbol_preserves_unique env _ _ symbol interval hgood hs

lemma le_foldl_max (l : List Nat) (a : Nat) : a ≤ l.foldl Nat.max a := by
  induction l generalizing a with
  | nil => exact Nat.le_refl a
  | cons b t ih => exact Nat.le_trans (Nat.le_max_left a b) (ih (Nat.max a b))

lemma foldl_max_le (l : List Nat) (a : Nat) : ∀ x ∈ l, x ≤ l.foldl Nat.max a := by
  induction l generalizing a with
  | nil => intro x hx; cases hx
  | cons b t ih =>
    intro x hx
    rcases List.mem_cons.mp hx with h | h
    · subst h
      exact Nat.le_trans (Nat.le_max_right a x) (le_foldl_max t (Nat.max a x))
    · exact ih (Nat.max a b) x h

lemma foldl_max_mem (l : List Nat) (a : Nat) : l.foldl Nat.max a ∈ a :: l := by
  induction l generalizing a with
  | nil => exact List.mem_cons_self a []
  | cons b t ih =>
    rcases List.mem_cons.mp (ih (Nat.max a b)) with h | h
    · rcases max_choice a b with hm | hm
      · rw [List.foldl_cons, h]
        show a ⊔ b ∈ a :: b :: t
        rw [hm]
        exact List.mem_cons_self _ _
      · rw [List.foldl_cons, h]
        show a ⊔ b ∈ a :: b :: t
        rw [hm]
        exact List.mem_cons_of_mem _ (List.mem_cons_self _ _)
    · exact List.mem_cons_of_mem _ (List.mem_cons_of_mem _ h)

lemma foldl_max_zero_mem (l : List Nat) (h : l ≠ []) : l.foldl Nat.max 0 ∈ l := by
  rcases List.mem_cons.mp (foldl_max_mem l 0) with h0 | hm
  · cases l with
    | nil => exact absurd rfl h
    | cons x t =>
      have hx : x ≤ (x :: t).foldl Nat.max 0 :=
        foldl_max_le (x :: t) 0 x (List.mem_cons_self x t)
      rw [h0] at hx
      have : x = 0 := Nat.le_zero.mp hx
      rw [h0, ← this]
      exact List.mem_cons_self x t
  · exact hm

lemma intervalMap_values_pos : ∀ q ∈ intervalMap, 0 < q.2 := by decide

lemma getIntervalMs_pos (interval : String) : 0 < getIntervalMs interval := by
  unfold getIntervalMs
  cases hf : intervalMap.find? (fun p => p.1 == interval) with
  | none => decide
  | some p => exact intervalMap_values_pos p (List.mem_of_find?_eq_some hf)

lemma getLatestTimestamp_of_max_some {s : Store} {i : Nat} {iv : String} {T : Nat}
    (hT : s.maxOpenTime i iv = some T) (h0 : T ≠ 0) :
    s.getLatestTimestamp i iv = some T := by
  unfold Store.getLatestTimestamp
  rw [hT]
  simp [h0]

lemma getLatestTimestamp_of_max_zero {s : Store} {i : Nat} {iv : String}
    (hT : s.maxOpenTime i iv = some 0) :
    s.getLatestTimestamp i iv = none := by
  unfold Store.getLatestTimestamp
  rw [hT]
  simp

lemma getLatestTimestamp_of_max_none {s : Store} {i : Nat} {iv : String}
    (hT : s.maxOpenTime i iv = none) :
    s.getLatestTimestamp i iv = none := by
  unfold Store.getLatestTimestamp
  rw [hT]

lemma maxOpenTime_of_candlesFor_nil {s : Store} {i : Nat} {iv : String}
    (h : s.candlesFor i iv = []) : s.maxOpenTime i iv = none := by
  unfold Store.maxOpenTime
  rw [h]
  rfl

lemma syncParams_startTime_some (s1 : Store) (row : SymbolRow)
    (symbol interval : String) (T : Nat)
    (h : s1.getLatestTimestamp row.id interval = some T) :
    (syncParams s1 row symbol interval).startTime =
      some (T + getIntervalMs interval) := by
  have hpos := getIntervalMs_pos interval
  simp [syncParams, buildParams, optTruthy, h]
  omega

lemma syncParams_startTime_none (s1 : Store) (row : SymbolRow)
    (symbol interval : String)
    (h : s1.getLatestTimestamp row.id interval = none) :
    (syncParams s1 row symbol interval).startTime = none := by
  simp [syncParams, buildParams, optTruthy, h]

lemma sync_request_of_found (env : Env) (s0 : Store) (symbol interval : String)
    (row : SymbolRow) (h1 : env.findBySymbolErr = none)
    (h2 : env.getLatestErr = none) (hrow : s0.findBySymbol symbol = some row) :
    (syncCandlesticks env s0 symbol interval).request =
      some (syncParams s0 row symbol interval) := by
  rcases sync_dispatch env s0 symbol interval with
    ⟨e, he, _⟩ | ⟨row2, _, hrow2, heq⟩ | ⟨e, _, hrow2, _, _⟩ | ⟨_, hrow2, _, _⟩
  · rw [he] at h1; cases h1
  · rw [hrow2] at hrow
    injection hrow with hr
    rw [heq, ← hr]
    exact syncAfterSymbol_request_eq env s0 row2 symbol interval h2
  · rw [hrow2] at hrow; cases hrow
  · rw [hrow2] at hrow; cases hrow

lemma intervalMap_keys : ∀ p ∈ intervalMap, p.1 ∈ intervalCodes := by decide

lemma getIntervalMs_table : ∀ p ∈ intervalMap, getIntervalMs p.1 = p.2 := by decide

lemma getIntervalMs_unknown (iv : String) (h : iv ∉ intervalCodes) :
    getIntervalMs iv = 60 * 1000 := by
  unfold getIntervalMs
  have hf : intervalMap.find? (fun p => p.1 == iv) = none := by
    apply List.find?_eq_none.mpr
    intro p hp hbeq
    have hpe : p.1 = iv := by simpa using hbeq
    exact h (hpe ▸ intervalMap_keys p hp)
  rw [hf]

lemma sync_found_empty_fetch (env : Env) (s1 : Store) (row : SymbolRow)
    (symbol interval : String) (h1 : env.findBySymbolErr = none)
    (h2 : env.getLatestErr = none)
    (hrow : s1.findBySymbol symbol = some row)
    (hf : env.fetchResp = Except.ok []) :
    syncCandlesticks env s1 symbol interval =
      ⟨{ success := true, message := "No new candlesticks to sync",
         candlesticksAdded := 0,
         latestTimestamp := s1.getLatestTimestamp row.id interval },
       s1, some (syncParams s1 row symbol interval)⟩ := by
  rcases sync_dispatch env s1 symbol interval with
    ⟨e, he, _⟩ | ⟨row2, _, hrow2, heq⟩ | ⟨e, _, hrow2, _, _⟩ | ⟨_, hrow2, _, _⟩
  · rw [he] at h1; cases h1
  · rw [hrow2] at hrow
    injection hrow with hr
    rw [heq, ← hr]
    exact syncAfterSymbol_empty_fetch env s1 row2 symbol interval h2 hf
  · rw [hrow2] at hrow; cases hrow
  · rw [hrow2] at hrow; cases hrow

/-- Claim C8: parseSymbol classifies a symbol code by greedy suffix-match
against the priority list USDT, BUSD, BTC, ETH, BNB, USDC, USD (first match
wins, base = remaining prefix); with no match, codes longer than 4
characters take their last 4 characters as quote asset, and shorter codes
get quote asset UNKNOWN; in particular BTCUSDT gives (BTC, USDT), ETHBTC
gives (ETH, BTC) and ABC gives (ABC, UNKNOWN). -/
theorem parseSymbol_correct (s : String) :
    (∀ q, commonQuotes.find? (fun q0 => strEndsWith s q0) = some q →
      parseSymbol s = { baseAsset := strDropRight s (strLength q), quoteAsset := q }) ∧
    (commonQuotes.find? (fun q0 => strEndsWith s q0) = none → strLength s > 4 →
      parseSymbol s = { baseAsset := strDropRight s 4, quoteAsset := strTakeRight s 4 }) ∧
    (commonQuotes.find? (fun q0 => strEndsWith s q0) = none → ¬ strLength s > 4 →
      parseSymbol s = { baseAsset := s, quoteAsset := "UNKNOWN" }) ∧
    parseSymbol "BTCUSDT" = { baseAsset := "BTC", quoteAsset := "USDT" } ∧
    parseSymbol "ETHBTC" = { baseAsset := "ETH", quoteAsset := "BTC" } ∧
    parseSymbol "ABC" = { baseAsset := "ABC", quoteAsset := "UNKNOWN" } := by
  refine ⟨?_, ?_, ?_, rfl, rfl, rfl⟩
  · intro q hq
    unfold parseSymbol
    rw [hq]
  · intro hq hl
    unfold parseSymbol
    rw [hq, if_pos hl]
  · intro hq hl
    unfold parseSymbol
    rw [hq, if_neg hl]

/-- Witness for C8: the first-match branch applied at the concrete code
ETHBTC, whose matching quote asset is BTC. -/
theorem parseSymbol_correct_witness :
    commonQuotes.find? (fun q0 => strEndsWith "ETHBTC" q0) = some "BTC" ∧
    parseSymbol "ETHBTC" = { baseAsset := "ETH", quoteAsset := "BTC" } :=
  ⟨rfl, (parseSymbol_correct "ETHBTC").1 "BTC" rfl⟩

/-- Claim C7: on HTTP 429 fetchKlines retries the identical request instead
of surfacing an error — a 429 followed by a 200 yields the 200 response's
data with exactly one retry (two attempts) — while any other failure raises
a Binance API error carrying the upstream message when present, else the
transport error message. -/
theorem fetchKlines_rate_limit_retry :
    (∀ (d : List BinanceKline) (rest : List HttpResp),
      fetchKlinesHttp (HttpResp.rateLimited :: HttpResp.success d :: rest) =
        (Except.ok d, 2)) ∧
    (∀ rest : List HttpResp,
      fetchKlinesHttp (HttpResp.rateLimited :: rest) =
        ((fetchKlinesHttp rest).1, (fetchKlinesHttp rest).2 + 1)) ∧
    (∀ (m em : String) (rest : List HttpResp),
      fetchKlinesHttp (HttpResp.failure (some m) em :: rest) =
        (Except.error ("Binance API error: " ++ m), 1)) ∧
    (∀ (em : String) (rest : List HttpResp),
      fetchKlinesHttp (HttpResp.failure none em :: rest) =
        (Except.error ("Binance API error: " ++ em), 1)) ∧
    (∀ (d : List BinanceKline) (rest : List HttpResp),
      fetchKlinesHttp (HttpResp.success d :: rest) = (Except.ok d, 1)) :=
  ⟨fun _ _ => rfl, fun _ => rfl, fun _ _ _ => rfl, fun _ _ => rfl, fun _ _ => rfl⟩

/-- Claim C6: syncMultipleSymbols returns exactly one result entry per
input code, in the caller-supplied order (even when individual syncs fail:
syncCandlesticks is total, so the loop never raises), and its
totalCandlesticksAdded is the sum of candlesticksAdded over the per-symbol
results, failed symbols contributing 0. -/
theorem syncMultipleSymbols_batch (envs : Nat → Env) (s : Store)
    (symbols : List String) (interval : String) :
    ((syncMultipleSymbols envs s symbols interval).results.map
      (fun r => r.symbol) = symbols) ∧
    ((syncMultipleSymbols envs s symbols interval).totalCandlesticksAdded =
      ((syncMultipleSymbols envs s symbols interval).results.map
        (fun r => r.candlesticksAdded)).sum) := by
  induction symbols generalizing envs s with
  | nil => exact ⟨rfl, rfl⟩
  | cons a rest ih =>
    obtain ⟨ih1, ih2⟩ := ih (fun i => envs (i + 1))
      (syncCandlesticks (envs 0) s a interval).store
    constructor
    · simp only [syncMultipleSymbols, List.map_cons, ih1]
    · simp only [syncMultipleSymbols, List.map_cons, List.sum_cons, ih2]

/-- Claim C2: for a successful syncCandlesticks call whose fetch returned a
nonempty page, the returned latestTimestamp is the page-wide fold of
Nat.max over all fetched openTimes — which is a member of the page's
openTimes and an upper bound of them, i.e. the maximum over the whole page
including bars later skipped as duplicates. -/
theorem sync_latest_is_page_max (env : Env) (s0 : Store)
    (symbol interval : String) (page : List BinanceKline)
    (hf : env.fetchResp = Except.ok page) (hne : page ≠ [])
    (hsucc : (syncCandlesticks env s0 symbol interval).result.success = true) :
    (syncCandlesticks env s0 symbol interval).result.latestTimestamp =
      some ((page.map (fun k => k.openTime)).foldl Nat.max 0) ∧
    ((page.map (fun k => k.openTime)).foldl Nat.max 0 ∈
      page.map (fun k => k.openTime)) ∧
    (∀ t ∈ page.map (fun k => k.openTime),
      t ≤ (page.map (fun k => k.openTime)).foldl Nat.max 0) := by
  refine ⟨?_, foldl_max_zero_mem _ (by simpa using hne),
    fun t ht => foldl_max_le _ _ t ht⟩
  rcases sync_dispatch env s0 symbol interval with
    ⟨e, _, heq⟩ | ⟨row, _, _, heq⟩ | ⟨e, _, _, _, heq⟩ | ⟨_, _, _, heq⟩
  · rw [heq] at hsucc; simp [failResult] at hsucc
  · rw [heq] at hsucc ⊢
    rw [syncAfterSymbol_success_latest env s0 row symbol interval page hf hne hsucc,
      pageMax_map]
  · rw [heq] at hsucc; simp [failResult] at hsucc
  · rw [heq] at hsucc ⊢
    rw [syncAfterSymbol_success_latest env _ _ symbol interval page hf hne hsucc,
      pageMax_map]

/-- Witness for C2: a concrete successful sync over the page with openTimes
5 and 65 returns latestTimestamp 65. -/
theorem sync_latest_is_page_max_witness :
    (syncCandlesticks (noFaultEnv (Except.ok [exKline 5, exKline 65]))
      emptyStore "BTCUSDT" "1m").result.latestTimestamp = some 65 :=
  (sync_latest_is_page_max (noFaultEnv (Except.ok [exKline 5, exKline 65]))
    emptyStore "BTCUSDT" "1m" [exKline 5, exKline 65] rfl (by simp) rfl).1

/-- Claim C3 (amended): when the stored maximum openTime T for the resolved
symbol row is nonzero, the issued kline request carries
startTime = T + getIntervalMs interval, which is strictly after T; when no
rows are stored, a request is issued with no startTime bound; the duration
table is the fifteen-entry intervalMap and unknown codes default to one
minute.  (The unamended claim fails at T = 0, where the cursor read
collapses the value to null: see the counterexample.) -/
theorem sync_startTime_correct (env : Env) (s0 : Store)
    (symbol interval : String) (row : SymbolRow) (T : Nat)
    (h1 : env.findBySymbolErr = none) (h2 : env.getLatestErr = none)
    (hrow : s0.findBySymbol symbol = some row) :
    (s0.maxOpenTime row.id interval = some T → T ≠ 0 →
      requestStartTime (syncCandlesticks env s0 symbol interval) =
        some (T + getIntervalMs interval)) ∧
    (T < T + getIntervalMs interval) ∧
    (s0.candlesFor row.id interval = [] →
      (syncCandlesticks env s0 symbol interval).request.isSome = true ∧
      requestStartTime (syncCandlesticks env s0 symbol interval) = none) ∧
    (∀ p ∈ intervalMap, getIntervalMs p.1 = p.2) ∧
    (∀ iv, iv ∉ intervalCodes → getIntervalMs iv = 60 * 1000) := by
  have hreq := sync_request_of_found env s0 symbol interval row h1 h2 hrow
  refine ⟨?_, Nat.lt_add_of_pos_right (getIntervalMs_pos interval), ?_,
    getIntervalMs_table, getIntervalMs_unknown⟩
  · intro hT h0
    unfold requestStartTime
    rw [hreq]
    exact syncParams_startTime_some s0 row symbol interval T
      (getLatestTimestamp_of_max_some hT h0)
  · intro hcf
    constructor
    · rw [hreq]; rfl
    · unfold requestStartTime
      rw [hreq]
      exact syncParams_startTime_none s0 row symbol interval
        (getLatestTimestamp_of_max_none (maxOpenTime_of_candlesFor_nil hcf))

/-- Witness for C3: a store primed to cursor 60000 for 1m produces a fetch
request with startTime 120000. -/
theorem sync_startTime_correct_witness :
    primedStore.maxOpenTime 1 "1m" = some 60000 ∧
    requestStartTime (syncCandlesticks (noFaultEnv (Except.ok []))
      primedStore "BTCUSDT" "1m") = some 120000 :=
  ⟨rfl, (sync_startTime_correct (noFaultEnv (Except.ok [])) primedStore
    "BTCUSDT" "1m" exSymbolRow 60000 rfl rfl rfl).1 rfl (by decide)⟩

/-- Counterexample to C3 as stated: a store whose maximum openTime for
(1, 1m) is T = 0 yields a request that carries NO startTime, not
startTime = 0 + duration as the claim demands for every stored maximum T. -/
theorem sync_startTime_zero_counterexample :
    zeroCursorStore.maxOpenTime 1 "1m" = some 0 ∧
    zeroCursorStore.findBySymbol "BTCUSDT" = some exSymbolRow ∧
    (syncCandlesticks (noFaultEnv (Except.ok [])) zeroCursorStore
      "BTCUSDT" "1m").request.isSome = true ∧
    requestStartTime (syncCandlesticks (noFaultEnv (Except.ok []))
      zeroCursorStore "BTCUSDT" "1m") = none ∧
    some (0 + getIntervalMs "1m") ≠ (none : Option Nat) :=
  ⟨rfl, rfl, rfl, rfl, by decide⟩

/-- Claim C10: getLatestTimestamp returns none both when no candlestick row
exists for the pair and when the maximum stored openTime is 0, and
consequently a sync call over a store whose maximum openTime is 0 issues
its fetch request without a startTime bound. -/
theorem getLatestTimestamp_zero_collapse (env : Env) (s0 : Store)
    (symbol interval : String) (row : SymbolRow)
    (h1 : env.findBySymbolErr = none) (h2 : env.getLatestErr = none)
    (hrow : s0.findBySymbol symbol = some row) :
    (s0.candlesFor row.id interval = [] →
      s0.getLatestTimestamp row.id interval = none) ∧
    (s0.maxOpenTime row.id interval = some 0 →
      s0.getLatestTimestamp row.id interval = none) ∧
    (s0.maxOpenTime row.id interval = some 0 →
      (syncCandlesticks env s0 symbol interval).request.isSome = true ∧
      requestStartTime (syncCandlesticks env s0 symbol interval) = none) := by
  have hreq := sync_request_of_found env s0 symbol interval row h1 h2 hrow
  refine ⟨?_, ?_, ?_⟩
  · intro h
    exact getLatestTimestamp_of_max_none (maxOpenTime_of_candlesFor_nil h)
  · exact getLatestTimestamp_of_max_zero
  · intro h0
    constructor
    · rw [hreq]; rfl
    · unfold requestStartTime
      rw [hreq]
      exact syncParams_startTime_none s0 row symbol interval
        (getLatestTimestamp_of_max_zero h0)

/-- Witness for C10: the concrete store holding one bar at openTime 0 has a
null cursor and its sync request carries no startTime. -/
theorem getLatestTimestamp_zero_collapse_witness :
    zeroCursorStore.maxOpenTime 1 "1m" = some 0 ∧
    zeroCursorStore.getLatestTimestamp 1 "1m" = none ∧
    requestStartTime (syncCandlesticks (noFaultEnv (Except.ok []))
      zeroCursorStore "BTCUSDT" "1m") = none := by
  have h := getLatestTimestamp_zero_collapse (noFaultEnv (Except.ok []))
    zeroCursorStore "BTCUSDT" "1m" exSymbolRow rfl rfl rfl
  exact ⟨rfl, h.2.1 rfl, (h.2.2 rfl).2⟩

/-- Claim C5: syncCandlesticks always returns a result (totality is by
construction of the embedding); whenever the result is a failure it carries
candlesticksAdded = 0 and a message of the form "Sync failed: " ++ e; and
both a thrown store error (findBySymbol site) and a thrown exchange error
produce exactly the structured failure result. -/
theorem sync_never_raises (env : Env) (s0 : Store) (symbol interval : String) :
    ((syncCandlesticks env s0 symbol interval).result.success = false →
      (syncCandlesticks env s0 symbol interval).result.candlesticksAdded = 0 ∧
      ∃ e, (syncCandlesticks env s0 symbol interval).result.message =
        "Sync failed: " ++ e) ∧
    (∀ e, env.findBySymbolErr = some e →
      (syncCandlesticks env s0 symbol interval).result = failResult e) ∧
    (∀ e, env.findBySymbolErr = none → env.createSymbolErr = none →
      env.getLatestErr = none → env.fetchResp = Except.error e →
      (syncCandlesticks env s0 symbol interval).result = failResult e) := by
  refine ⟨?_, ?_, ?_⟩
  · intro hfail
    rcases sync_dispatch env s0 symbol interval with
      ⟨e, _, heq⟩ | ⟨row, _, _, heq⟩ | ⟨e, _, _, _, heq⟩ | ⟨_, _, _, heq⟩
    · rw [heq]; exact ⟨rfl, e, rfl⟩
    · rw [heq] at hfail ⊢
      obtain ⟨e, he⟩ := syncAfterSymbol_fail_shape env s0 row symbol interval hfail
      rw [he]; exact ⟨rfl, e, rfl⟩
    · rw [heq]; exact ⟨rfl, e, rfl⟩
    · rw [heq] at hfail ⊢
      obtain ⟨e, he⟩ := syncAfterSymbol_fail_shape env _ _ symbol interval hfail
      rw [he]; exact ⟨rfl, e, rfl⟩
  · intro e he
    rcases sync_dispatch env s0 symbol interval with
      ⟨e2, he2, heq⟩ | ⟨row, h1, _, _⟩ | ⟨e2, h1, _, _, _⟩ | ⟨h1, _, _, _⟩
    · rw [he] at he2; injection he2 with h; rw [heq, h]
    · rw [h1] at he; cases he
    · rw [h1] at he; cases he
    · rw [h1] at he; cases he
  · intro e h1 hc h2 hf
    rcases sync_dispatch env s0 symbol interval with
      ⟨e2, he2, _⟩ | ⟨row, _, _, heq⟩ | ⟨e2, _, _, hce, _⟩ | ⟨_, _, _, heq⟩
    · rw [he2] at h1; cases h1
    · rw [heq, syncAfterSymbol_fetch_error env s0 row symbol interval e h2 hf]
    · rw [hce] at hc; cases hc
    · rw [heq, syncAfterSymbol_fetch_error env _ _ symbol interval e h2 hf]

/-- Witness for C5: a concrete store fault turns into the structured
failure result with success false and 0 bars added. -/
theorem sync_never_raises_witness :
    (syncCandlesticks faultEnv emptyStore "BTCUSDT" "1m").result =
      failResult "db down" ∧
    (syncCandlesticks faultEnv emptyStore "BTCUSDT" "1m").result.success = false ∧
    (syncCandlesticks faultEnv emptyStore "BTCUSDT" "1m").result.candlesticksAdded = 0 :=
  ⟨(sync_never_raises faultEnv emptyStore "BTCUSDT" "1m").2.1 "db down" rfl,
   rfl, rfl⟩

/-- Claim C4: if syncCandlesticks ran once (faultlessly finding or creating
the symbol row) and a second call's fetch returns no bars, the second call
returns success with candlesticksAdded = 0 and latestTimestamp equal to the
cursor after the first call, and leaves the store unchanged. -/
theorem sync_idempotent (env1 env2 : Env) (s0 : Store)
    (symbol interval : String) (page : List BinanceKline)
    (h11 : env1.findBySymbolErr = none) (h12 : env1.createSymbolErr = none)
    (_hf1 : env1.fetchResp = Except.ok page)
    (hF2 : env2.noStoreFaults) (hf2 : env2.fetchResp = Except.ok []) :
    ∃ row,
      (syncCandlesticks env1 s0 symbol interval).store.findBySymbol symbol =
        some row ∧
      (syncCandlesticks env2 (syncCandlesticks env1 s0 symbol interval).store
        symbol interval).result =
        { success := true, message := "No new candlesticks to sync",
          candlesticksAdded := 0,
          latestTimestamp := (syncCandlesticks env1 s0 symbol
            interval).store.getLatestTimestamp row.id interval } ∧
      (syncCandlesticks env2 (syncCandlesticks env1 s0 symbol interval).store
        symbol interval).store =
        (syncCandlesticks env1 s0 symbol interval).store := by
  obtain ⟨row, hrow⟩ := sync_symbol_present env1 s0 symbol interval h11 h12
  obtain ⟨hA, hB, hC, hD, hE⟩ := hF2
  have h := sync_found_empty_fetch env2
    (syncCandlesticks env1 s0 symbol interval).store row symbol interval
    hA hC hrow hf2
  exact ⟨row, hrow, by rw [h], by rw [h]⟩

/-- Witness for C4: after a first sync of one bar at openTime 60000, a
second call with an empty fetch adds 0 bars and leaves the store as is. -/
theorem sync_idempotent_witness :
    (syncCandlesticks (noFaultEnv (Except.ok []))
      (syncCandlesticks (noFaultEnv (Except.ok [exKline 60000])) emptyStore
        "BTCUSDT" "1m").store "BTCUSDT" "1m").result.candlesticksAdded = 0 ∧
    (syncCandlesticks (noFaultEnv (Except.ok []))
      (syncCandlesticks (noFaultEnv (Except.ok [exKline 60000])) emptyStore
        "BTCUSDT" "1m").store "BTCUSDT" "1m").store =
      (syncCandlesticks (noFaultEnv (Except.ok [exKline 60000])) emptyStore
        "BTCUSDT" "1m").store := by
  obtain ⟨row, hrow, hres, hstore⟩ := sync_idempotent
    (noFaultEnv (Except.ok [exKline 60000])) (noFaultEnv (Except.ok []))
    emptyStore "BTCUSDT" "1m" [exKline 60000] rfl rfl rfl
    ⟨rfl, rfl, rfl, rfl, rfl⟩ rfl
  exact ⟨by rw [hres], hstore⟩

/-- Claim C9: syncCandlesticks never updates or deletes an existing
candlestick row: the resulting candles list is the original list plus
appended inserts whose (symbolId, interval, openTime) key was absent at the
start of the call, and the symbols table is unchanged except possibly for
one appended row for the synced code. -/
theorem sync_frame (env : Env) (s0 : Store) (symbol interval : String) :
    ∃ ins : List Candle,
      (syncCandlesticks env s0 symbol interval).store.candles =
        s0.candles ++ ins ∧
      (∀ c ∈ ins, s0.findExisting c.symbolId c.interval c.openTime = none) ∧
      ((syncCandlesticks env s0 symbol interval).store.symbols = s0.symbols ∨
        ∃ row, (syncCandlesticks env s0 symbol interval).store.symbols =
          s0.symbols ++ [row] ∧ row.symbol = symbol) :=
  sync_store_shape env s0 symbol interval

/-- Claim C1 (amended): every store reachable from the empty database by
sync calls whose fetched pages have pairwise-distinct openTime values has
pairwise-distinct (symbolId, interval, openTime) triples.  (The unamended
claim — uniqueness even for pages that repeat an openTime — fails: see the
counterexample.) -/
theorem sync_unique_invariant (s : Store) (h : ReachableGood s) :
    uniqueTriples s.candles = true := by
  induction h with
  | init => rfl
  | step env symbol interval hgood _ ih =>
    exact sync_preserves_unique env _ symbol interval hgood ih

/-- Witness for C1: the store reached by one faultless sync of a
distinct-openTime page satisfies the uniqueness invariant with two rows
stored. -/
theorem sync_unique_invariant_witness :
    uniqueTriples goodStore.candles = true ∧ goodStore.candles.length = 2 :=
  ⟨sync_unique_invariant goodStore
    (ReachableGood.step goodPageEnv "BTCUSDT" "1m"
      (fun page hp => by injection hp with h; rw [← h]; decide)
      ReachableGood.init),
   rfl⟩

/-- Counterexample to C1 as stated: one sync call on the empty store whose
fetched page repeats openTime 5 produces a reachable store with two rows
sharing the same (symbolId, interval, openTime) triple — the existence
check runs against the store before the batch insert, so in-page
duplicates are both inserted. -/
theorem sync_unique_counterexample :
    Reachable dupStore ∧ uniqueTriples dupStore.candles = false ∧
    dupStore.candles.length = 2 :=
  ⟨Reachable.step dupPageEnv "BTCUSDT" "1m" Reachable.init, rfl, rfl⟩
